import Mathlib

/-
Shallow embedding of the persistent widget-state and scheduling core of
`src/main.py` (desktop-widgets).  Python dicts are modelled as insertion-ordered
association lists over `String` keys, Python ints as `Int`, Python lists as
`List`, and a raised exception that escapes a function as `Except.error`.
-/

/-! ## Association-map primitives (Python `dict` usage) -/

/-- Python `d.get(k)` / `k in d`: first binding for `k`, if any. -/
def getKey? {α : Type} : List (String × α) → String → Option α
  | [], _ => none
  | (k', v) :: rest, k => if k' = k then some v else getKey? rest k

/-- Python `d.get(k, dflt)`. -/
def getKeyD {α : Type} (m : List (String × α)) (k : String) (d : α) : α :=
  (getKey? m k).getD d

/-- Python `d[k] = v`: replace in place if the key exists, else append. -/
def setKey {α : Type} : List (String × α) → String → α → List (String × α)
  | [], k, v => [(k, v)]
  | (k', v') :: rest, k, v =>
      if k' = k then (k, v) :: rest else (k', v') :: setKey rest k v

/-- Python `del d[k]` (at call sites the key is known present, or deletion is
guarded by a membership test, so removing all bindings is faithful). -/
def delKey {α : Type} (m : List (String × α)) (k : String) : List (String × α) :=
  m.filter (fun p => p.1 != k)

theorem getKey?_setKey_self {α : Type} (m : List (String × α)) (k : String) (v : α) :
    getKey? (setKey m k v) k = some v := by
  induction m with
  | nil => simp [setKey, getKey?]
  | cons p rest ih =>
    obtain ⟨k', v'⟩ := p
    by_cases h : k' = k
    · simp [setKey, h, getKey?]
    · simp [setKey, h, getKey?, ih]

theorem getKeyD_setKey_self {α : Type} (m : List (String × α)) (k : String) (v d : α) :
    getKeyD (setKey m k v) k d = v := by
  simp [getKeyD, getKey?_setKey_self]

theorem getKey?_delKey_self {α : Type} (m : List (String × α)) (k : String) :
    getKey? (delKey m k) k = none := by
  induction m with
  | nil => simp [delKey, getKey?]
  | cons p rest ih =>
    obtain ⟨k', v'⟩ := p
    simp only [delKey, List.filter_cons] at *
    by_cases h : k' = k
    · simpa [h] using ih
    · simpa [h, getKey?] using ih

theorem mem_setKey {α : Type} {m : List (String × α)} {k : String} {v : α}
    {p : String × α} (hp : p ∈ setKey m k v) : p = (k, v) ∨ p ∈ m := by
  induction m with
  | nil => simpa [setKey] using hp
  | cons q rest ih =>
    obtain ⟨k', v'⟩ := q
    by_cases h : k' = k
    · simp [setKey, h] at hp
      rcases hp with hp | hp
      · exact Or.inl (by simp [hp])
      · exact Or.inr (by simp [hp])
    · simp [setKey, h] at hp
      rcases hp with hp | hp
      · exact Or.inr (by simp [hp])
      · rcases ih hp with h1 | h1
        · exact Or.inl h1
        · exact Or.inr (by simp [h1])

theorem mem_delKey {α : Type} {m : List (String × α)} {k : String}
    {p : String × α} (hp : p ∈ delKey m k) : p ∈ m :=
  List.mem_of_mem_filter hp

/-! ## Pomodoro engine (`PomodoroWidget`, src/main.py lines 1158-1413) -/

/-- In-memory state of `PomodoroWidget` together with the slice of
`data_manager.data` it mutates (`pomodoro_history`).  `today` is the fixed
value of `datetime.now().strftime("%Y-%m-%d")` for the current run. -/
structure PomodoroState where
  focusSetting : Int
  breakSetting : Int
  is_running : Bool
  is_break : Bool
  time_left : Int
  sessions_today : Int
  history : List (String × Int)
  today : String
deriving DecidableEq, Repr

/-- `PomodoroWidget.get_today_sessions` (lines 1171-1173). -/
def get_today_sessions (history : List (String × Int)) (today : String) : Int :=
  getKeyD history today 0

/-- `PomodoroWidget.__init__` (lines 1159-1167): settings read from the data
document, `is_running=False`, `is_break=False`, `time_left = focus*60`,
`sessions_today = get_today_sessions()`. -/
def mkPomodoro (history : List (String × Int)) (focusSetting breakSetting : Int)
    (today : String) : PomodoroState :=
  { focusSetting := focusSetting
    breakSetting := breakSetting
    is_running := false
    is_break := false
    time_left := focusSetting * 60
    sessions_today := get_today_sessions history today
    history := history
    today := today }

/-- `PomodoroWidget.timer_complete` (lines 1328-1362), UI calls dropped. -/
def timer_complete (s : PomodoroState) : PomodoroState :=
  let s1 := { s with is_running := false }
  if s1.is_break = false then
    let sessions := s1.sessions_today + 1
    { s1 with
        sessions_today := sessions
        history := setKey s1.history s1.today sessions
        is_break := true
        time_left := s1.breakSetting * 60 }
  else
    { s1 with is_break := false, time_left := s1.focusSetting * 60 }

/-- `PomodoroWidget.run_timer` (lines 1320-1326): one invocation of the
self-re-scheduling tick callback. -/
def run_timer (s : PomodoroState) : PomodoroState :=
  if s.is_running = true ∧ 0 < s.time_left then
    { s with time_left := s.time_left - 1 }
  else if s.time_left = 0 then
    timer_complete s
  else
    s

/-- `PomodoroWidget.toggle_timer` (lines 1312-1318): flips `is_running`; when
starting it invokes `run_timer` synchronously before returning. -/
def toggle_timer (s : PomodoroState) : PomodoroState :=
  let s1 := { s with is_running := !s.is_running }
  if s1.is_running = true then run_timer s1 else s1

/-- `PomodoroWidget.skip_timer` (lines 1381-1384). -/
def skip_timer (s : PomodoroState) : PomodoroState :=
  timer_complete { s with time_left := 0 }

/-- `PomodoroWidget.reset_timer` (lines 1386-1392). -/
def reset_timer (s : PomodoroState) : PomodoroState :=
  { s with is_running := false, is_break := false, time_left := s.focusSetting * 60 }

/-- `PomodoroWidget.update_settings` (lines 1394-1413): out-of-range values
raise `ValueError`, caught by the surrounding `except`, so the state is
returned unchanged; the assignments happen only after both range checks. -/
def update_settings (s : PomodoroState) (new_focus new_break : Int) : PomodoroState :=
  if new_focus < 1 ∨ 90 < new_focus then s
  else if new_break < 1 ∨ 30 < new_break then s
  else
    let s1 := { s with focusSetting := new_focus, breakSetting := new_break }
    if s1.is_running = false then
      { s1 with
          time_left := (if s1.is_break = false then s1.focusSetting else s1.breakSetting) * 60 }
    else s1

example :
    (run_timer { focusSetting := 1, breakSetting := 5, is_running := true,
                 is_break := false, time_left := 60, sessions_today := 0,
                 history := [], today := "2024-06-01" }).time_left = 59 := by
  decide

/-! ## Calendar events (`CalendarWidget`, src/main.py lines 626-650) -/

/-- The `calendar_events` map: `DateKey -> ordered list of event strings`. -/
abbrev EventsMap := List (String × List String)

/-- `CalendarWidget.add_event` (lines 626-637): `event` is the dialog result;
`if event:` skips `None`/empty input, then the list at the selected date is
created if absent and `event` is appended. -/
def add_event (m : EventsMap) (selected_date : String) (event : String) : EventsMap :=
  if event ≠ "" then
    setKey m selected_date (getKeyD m selected_date [] ++ [event])
  else m

/-- `CalendarWidget.delete_event` (lines 639-650): pops index `idx` from the
list at the selected date when in range, deleting the key if the list becomes
empty; otherwise a no-op. -/
def delete_event (m : EventsMap) (selected_date : String) (idx : Nat) : EventsMap :=
  let events := getKeyD m selected_date []
  if idx < events.length then
    let events' := events.eraseIdx idx
    if events' = [] then delKey m selected_date
    else setKey m selected_date events'
  else m

/-! ## Python `str.strip` (ASCII-whitespace model) -/

/-- Trailing-whitespace removal: `rstripList (c :: cs)` keeps `c` unless
everything to its right is stripped away and `c` itself is whitespace. -/
def rstripList : List Char → List Char
  | [] => []
  | c :: cs =>
    let r := rstripList cs
    if r = [] ∧ c.isWhitespace = true then [] else c :: r

/-- Model of Python `str.strip()` on the character list: drop leading
whitespace, then trailing whitespace. -/
def stripList (l : List Char) : List Char :=
  rstripList (l.dropWhile Char.isWhitespace)

/-- Model of Python `str.strip()`. -/
def stripString (s : String) : String :=
  ⟨stripList s.data⟩

theorem rstripList_rstripList (l : List Char) :
    rstripList (rstripList l) = rstripList l := by
  induction l with
  | nil => simp [rstripList]
  | cons c cs ih =>
    by_cases h : rstripList cs = [] ∧ c.isWhitespace = true
    · simp [rstripList, h]
    · simp only [rstripList, if_neg h]
      simp only [rstripList, ih, if_neg h]

theorem dropWhile_head_false {p : Char → Bool} {l : List Char} {c : Char}
    {t : List Char} (h : l.dropWhile p = c :: t) : p c = false := by
  induction l with
  | nil => simp [List.dropWhile] at h
  | cons a as ih =>
    by_cases ha : p a = true
    · exact ih (by simpa [List.dropWhile_cons, ha] using h)
    · rw [List.dropWhile_cons, if_neg (by simp [ha])] at h
      cases h
      simpa using ha

theorem rstripList_head (c : Char) (cs : List Char) :
    rstripList (c :: cs) = [] ∨ ∃ t, rstripList (c :: cs) = c :: t := by
  by_cases h : rstripList cs = [] ∧ c.isWhitespace = true
  · exact Or.inl (by simp [rstripList, h])
  · exact Or.inr ⟨rstripList cs, by simp [rstripList, if_neg h]⟩

theorem stripList_stripList (l : List Char) :
    stripList (stripList l) = stripList l := by
  unfold stripList
  cases hdw : l.dropWhile Char.isWhitespace with
  | nil => simp [rstripList, List.dropWhile]
  | cons c t =>
    have hc : c.isWhitespace = false := dropWhile_head_false hdw
    rcases rstripList_head c t with h0 | ⟨t', ht'⟩
    · exact absurd h0 (by simp [rstripList, hc])
    · rw [ht', List.dropWhile_cons, if_neg (by simp [hc])]
      have := rstripList_rstripList (c :: t)
      rwa [ht'] at this

theorem stripString_stripString (s : String) :
    stripString (stripString s) = stripString s := by
  unfold stripString
  exact congrArg String.mk (stripList_stripList s.data)

/-! ## Todo list (`TodoWidget`, src/main.py lines 736-803) -/

/-- One entry of `data["todos"]`: `{"text": ..., "done": ...}`. -/
structure Todo where
  text : String
  done : Bool
deriving DecidableEq, Repr

/-- `TodoWidget.add_todo` (lines 736-746): strips the entry text and appends
`{text, done: False}` when the stripped text is non-empty. -/
def add_todo (todos : List Todo) (raw : String) : List Todo :=
  let text := stripString raw
  if text ≠ "" then todos ++ [{ text := text, done := false }] else todos

/-- `TodoWidget.toggle_todo` (lines 778-783):
`data["todos"][idx]["done"] = var.get()` with no bounds check — an
out-of-range index raises `IndexError`, modelled as `Except.error`. -/
def toggle_todo (todos : List Todo) (idx : Nat) (v : Bool) : Except String (List Todo) :=
  if h : idx < todos.length then
    Except.ok (todos.set idx { todos.get ⟨idx, h⟩ with done := v })
  else Except.error "IndexError"

/-- `TodoWidget.delete_todo` (lines 785-790): `data["todos"].pop(idx)` with no
bounds check — an out-of-range index raises `IndexError`. -/
def delete_todo (todos : List Todo) (idx : Nat) : Except String (List Todo) :=
  if idx < todos.length then
    Except.ok (todos.eraseIdx idx)
  else Except.error "IndexError"

/-- `TodoWidget.clear_completed` (lines 792-796). -/
def clear_completed (todos : List Todo) : List Todo :=
  todos.filter (fun t => !t.done)

/-! ## Planner maps (day / weekly / monthly) -/

/-- `DayPlannerWidget.save_slot` (lines 901-912): strips the entry text and
stores it at `key`; empty stripped text deletes the key (guarded by a
membership test).  `WeeklyPlannerWidget.save_day` (lines 1014-1022) and
`MonthlyPlannerWidget.save_day` (lines 1126-1134) perform the identical map
update on `weekly_plans` / `monthly_plans`. -/
def save_slot (m : List (String × String)) (key : String) (raw : String) :
    List (String × String) :=
  let text := stripString raw
  if text ≠ "" then setKey m key text
  else if (getKey? m key).isSome then delKey m key
  else m

/-- `WeeklyPlannerWidget.save_day` / `MonthlyPlannerWidget.save_day`
(lines 1014-1022 and 1126-1134): same update as `save_slot`. -/
def save_day (m : List (String × String)) (date_str : String) (raw : String) :
    List (String × String) :=
  let content := stripString raw
  if content ≠ "" then setKey m date_str content
  else if (getKey? m date_str).isSome then delKey m date_str
  else m

/-- The read path for all three plan maps
(`data.get("day_plans", {}).get(key, "")`, line 889, and the analogous reads
at lines 1010 and 1120): absent keys read as the empty string. -/
def get_plan (m : List (String × String)) (key : String) : String :=
  getKeyD m key ""

/-- Day-plan key composition `f"{self.current_date}_{hour}"` (line 888):
the hour is an unpadded base-10 integer. -/
def dayKey (date : String) (hour : Nat) : String :=
  date ++ "_" ++ toString hour

/-! ## Month navigation (`CalendarWidget.prev_month/next_month`,
src/main.py lines 612-624, and the identical
`MonthlyPlannerWidget.prev_month/next_month`, lines 1136-1148) -/

/-- Date fields of the Python `datetime` held in `self.current_date`. -/
structure CalDate where
  year : Int
  month : Nat
  day : Nat
deriving DecidableEq, Repr

/-- Python leap-year rule (as used by `datetime`). -/
def isLeap (y : Int) : Bool :=
  y % 4 == 0 && (y % 100 != 0 || y % 400 == 0)

/-- Length of month `m` of year `y` (for `m` between 1 and 12). -/
def daysInMonth (y : Int) (m : Nat) : Nat :=
  if m = 2 then (if isLeap y then 29 else 28)
  else if m = 4 ∨ m = 6 ∨ m = 9 ∨ m = 11 then 30
  else 31

/-- The validity predicate `datetime` maintains for its date fields. -/
def ValidDate (d : CalDate) : Prop :=
  1 ≤ d.year ∧ d.year ≤ 9999 ∧ 1 ≤ d.month ∧ d.month ≤ 12 ∧
    1 ≤ d.day ∧ d.day ≤ daysInMonth d.year d.month

instance (d : CalDate) : Decidable (ValidDate d) := by
  unfold ValidDate; infer_instance

/-- Python `datetime.replace(year=y, month=m)`: validates the new fields
against the unchanged day and raises `ValueError` when the day does not exist
in the target month (or a field is out of range). -/
def replaceYM (d : CalDate) (y : Int) (m : Nat) : Except String CalDate :=
  if 1 ≤ y ∧ y ≤ 9999 ∧ 1 ≤ m ∧ m ≤ 12 ∧ 1 ≤ d.day ∧ d.day ≤ daysInMonth y m then
    Except.ok { year := y, month := m, day := d.day }
  else Except.error "day is out of range for month"

/-- `prev_month` (lines 612-617 / 1136-1141). -/
def prev_month (d : CalDate) : Except String CalDate :=
  if d.month = 1 then replaceYM d (d.year - 1) 12
  else replaceYM d d.year (d.month - 1)

/-- `next_month` (lines 619-624 / 1143-1148). -/
def next_month (d : CalDate) : Except String CalDate :=
  if d.month = 12 then replaceYM d (d.year + 1) 1
  else replaceYM d d.year (d.month + 1)

/-! ## Persistent store (`DataManager`, src/main.py lines 41-89) -/

/-- `data["pomodoro_settings"]`: `{"focus": ..., "break": ...}`. -/
structure PomodoroSettings where
  focus : Int
  brk : Int
deriving DecidableEq, Repr

/-- The `AppData` document (the shape of `data_manager.data`). -/
structure AppData where
  calendar_events : EventsMap
  todos : List Todo
  day_plans : List (String × String)
  weekly_plans : List (String × String)
  monthly_plans : List (String × String)
  pomodoro_history : List (String × Int)
  pomodoro_settings : PomodoroSettings
deriving DecidableEq, Repr

/-- The `AppConfig` document (the shape of `data_manager.config`). -/
structure AppConfig where
  colors : List (String × String)
  positions : List (String × (Int × Int))
  sizes : List (String × (Int × Int))
  expanded : List (String × Bool)
deriving DecidableEq, Repr

/-- `DEFAULT_COLORS` (lines 31-38). -/
def DEFAULT_COLORS : List (String × String) :=
  [("calendar", "#FFE4E1"), ("todo", "#E0FFE0"), ("day_planner", "#E6E6FA"),
   ("weekly_planner", "#FFEFD5"), ("monthly_planner", "#E0FFFF"),
   ("pomodoro", "#FFF0F5")]

/-- The hard-coded default data document (lines 53-61). -/
def defaultAppData : AppData :=
  { calendar_events := []
    todos := []
    day_plans := []
    weekly_plans := []
    monthly_plans := []
    pomodoro_history := []
    pomodoro_settings := { focus := 25, brk := 5 } }

/-- The hard-coded default config document (lines 77-82). -/
def defaultAppConfig : AppConfig :=
  { colors := DEFAULT_COLORS
    positions := []
    sizes := []
    expanded := [] }

/-- Outcome of attempting to read and parse one of the JSON files: the file
may be missing (`os.path.exists` false), unreadable (`open`/read raises), or
malformed (`json.load` raises); otherwise a document is obtained. -/
inductive ReadResult (α : Type) : Type
  | fileMissing : ReadResult α
  | readError : ReadResult α
  | parseError : ReadResult α
  | parsed (doc : α) : ReadResult α
deriving DecidableEq

/-- `DataManager.load_data` (lines 46-61): the bare `except: pass` swallows
every failure and the hard-coded default dictionary is returned. -/
def load_data : ReadResult AppData → AppData
  | ReadResult.parsed d => d
  | _ => defaultAppData

/-- `DataManager.load_config` (lines 70-82): same fail-soft pattern. -/
def load_config : ReadResult AppConfig → AppConfig
  | ReadResult.parsed c => c
  | _ => defaultAppConfig

/-! ## Invariant predicates -/

/-- Every key present in the events map carries a non-empty list. -/
def EventsInv (m : EventsMap) : Prop := ∀ p ∈ m, p.2 ≠ []

instance (m : EventsMap) : Decidable (EventsInv m) := by
  unfold EventsInv; infer_instance

/-- The in-memory daily counter dominates the persisted count for today. -/
def PomInv (s : PomodoroState) : Prop :=
  getKeyD s.history s.today 0 ≤ s.sessions_today

instance (s : PomodoroState) : Decidable (PomInv s) := by
  unfold PomInv; infer_instance

/-- One engine operation keeps `today` fixed, never shrinks the persisted
count for today, and re-establishes `PomInv`. -/
def HistMono (s s' : PomodoroState) : Prop :=
  s'.today = s.today ∧
    getKeyD s.history s.today 0 ≤ getKeyD s'.history s'.today 0 ∧ PomInv s'

instance (s s' : PomodoroState) : Decidable (HistMono s s') := by
  unfold HistMono; infer_instance

/-! ## Claim theorems -/

/-- Claim C8: for every possible on-disk state (missing file, unreadable
file, malformed document) `load_data` and `load_config` are total (never
raise, being total functions of the read outcome) and yield the hard-coded
default document whenever no document could be read and parsed. -/
theorem c8_load_fails_soft :
    (∀ r : ReadResult AppData,
        (∀ d, r ≠ ReadResult.parsed d) → load_data r = defaultAppData) ∧
    (∀ r : ReadResult AppConfig,
        (∀ c, r ≠ ReadResult.parsed c) → load_config r = defaultAppConfig) := by
  constructor
  · intro r h
    cases r with
    | fileMissing => rfl
    | readError => rfl
    | parseError => rfl
    | parsed d => exact absurd rfl (h d)
  · intro r h
    cases r with
    | fileMissing => rfl
    | readError => rfl
    | parseError => rfl
    | parsed c => exact absurd rfl (h c)

/-- Witness for C8 at concrete failure outcomes. -/
theorem c8_load_fails_soft_witness :
    load_data ReadResult.fileMissing = defaultAppData ∧
    load_config ReadResult.parseError = defaultAppConfig :=
  ⟨c8_load_fails_soft.1 ReadResult.fileMissing (fun _ h => ReadResult.noConfusion h),
   c8_load_fails_soft.2 ReadResult.parseError (fun _ h => ReadResult.noConfusion h)⟩

/-- Claim C3: `update_settings` rejects any pair outside `[1,90] × [1,30]`
leaving the whole state unchanged; an accepted pair while idle immediately
recomputes `time_left` as the new duration of the current phase times 60. -/
theorem c3_update_settings :
    ∀ (s : PomodoroState) (f b : Int),
      ((f < 1 ∨ 90 < f ∨ b < 1 ∨ 30 < b) → update_settings s f b = s) ∧
      (1 ≤ f → f ≤ 90 → 1 ≤ b → b ≤ 30 → s.is_running = false →
        update_settings s f b =
          { s with focusSetting := f, breakSetting := b,
                   time_left := (if s.is_break = false then f else b) * 60 }) := by
  intro s f b
  constructor
  · intro h
    unfold update_settings
    by_cases h1 : f < 1 ∨ 90 < f
    · rw [if_pos h1]
    · rw [if_neg h1, if_pos (show b < 1 ∨ 30 < b by omega)]
  · intro hf1 hf2 hb1 hb2 hrun
    unfold update_settings
    rw [if_neg (by omega), if_neg (by omega), if_pos hrun]

/-- Witness for C3: `update_settings(0, 5)` is rejected; `update_settings(25, 5)`
while idle in Focus sets `time_left` to `25*60`. -/
theorem c3_update_settings_witness :
    update_settings (mkPomodoro [] 20 10 "2024-06-01") 0 5 =
      mkPomodoro [] 20 10 "2024-06-01" ∧
    update_settings (mkPomodoro [] 20 10 "2024-06-01") 25 5 =
      { mkPomodoro [] 20 10 "2024-06-01" with
          focusSetting := 25, breakSetting := 5, time_left := 1500 } := by
  constructor
  · exact (c3_update_settings (mkPomodoro [] 20 10 "2024-06-01") 0 5).1
      (Or.inl (by decide))
  · have h := (c3_update_settings (mkPomodoro [] 20 10 "2024-06-01") 25 5).2
      (by decide) (by decide) (by decide) (by decide) rfl
    exact h

/-- Counterexample to claim C2 as stated: on the empty todo list, index 0 is
out of range, yet `toggle_todo` and `delete_todo` raise `IndexError`
(`Except.error`) instead of being no-ops. -/
theorem c2_counterexample :
    toggle_todo [] 0 true = Except.error "IndexError" ∧
    delete_todo [] 0 = Except.error "IndexError" ∧
    (Except.error "IndexError" : Except String (List Todo)) ≠ Except.ok [] :=
  ⟨rfl, rfl, fun h => Except.noConfusion h⟩

/-- Claim C2 (amended): `toggle_todo` and `delete_todo` perform unchecked
indexing, so every out-of-range index raises `IndexError` rather than being
a no-op. -/
theorem c2_amended :
    ∀ (todos : List Todo) (idx : Nat) (v : Bool),
      todos.length ≤ idx →
      toggle_todo todos idx v = Except.error "IndexError" ∧
      delete_todo todos idx = Except.error "IndexError" := by
  intro todos idx v h
  constructor
  · unfold toggle_todo
    rw [dif_neg (by omega)]
  · unfold delete_todo
    rw [if_neg (by omega)]

/-- Witness for C2 (amended) at a concrete out-of-range index. -/
theorem c2_amended_witness :
    toggle_todo [{ text := "a", done := false }] 5 true = Except.error "IndexError" ∧
    delete_todo [{ text := "a", done := false }] 5 = Except.error "IndexError" :=
  c2_amended [{ text := "a", done := false }] 5 true (by decide)

/-- Starting the idle timer with time on the clock: `toggle_timer` flips
`is_running` and then invokes `run_timer` synchronously, which performs the
first decrement before `toggle_timer` returns. -/
theorem toggle_timer_start (s : PomodoroState) (h : s.is_running = false)
    (hpos : 0 < s.time_left) :
    toggle_timer s = { s with is_running := true, time_left := s.time_left - 1 } := by
  unfold toggle_timer
  rw [h]
  show run_timer { s with is_running := true } = _
  unfold run_timer
  rw [if_pos ⟨rfl, hpos⟩]

/-- Counterexample to claim C6 as stated: starting the idle timer
(`toggle_timer` from `is_running = false`) synchronously runs the first tick,
so `time_left` is decremented before the operation returns. -/
theorem c6_counterexample :
    (toggle_timer (mkPomodoro [] 25 5 "2024-06-01")).time_left ≠
      (mkPomodoro [] 25 5 "2024-06-01").time_left := by
  decide

/-- Claim C6 (amended): pause (`is_running = true`) toggles `is_running` to
false leaving `phase` and `time_left` unchanged; start (`is_running = false`,
with `time_left > 0`) sets `is_running` to true and decrements `time_left`
by exactly 1 (the first tick runs synchronously inside start), leaving the
phase unchanged. -/
theorem c6_amended :
    ∀ s : PomodoroState,
      (s.is_running = true → toggle_timer s = { s with is_running := false }) ∧
      (s.is_running = false → 0 < s.time_left →
        toggle_timer s = { s with is_running := true, time_left := s.time_left - 1 }) := by
  intro s
  constructor
  · intro h
    unfold toggle_timer
    rw [h]
    rfl
  · intro h hpos
    exact toggle_timer_start s h hpos

/-- Witness for C6 (amended) at concrete running and idle states. -/
theorem c6_amended_witness :
    toggle_timer { focusSetting := 25, breakSetting := 5, is_running := true,
                   is_break := false, time_left := 100, sessions_today := 0,
                   history := [], today := "2024-06-01" } =
      { focusSetting := 25, breakSetting := 5, is_running := false,
        is_break := false, time_left := 100, sessions_today := 0,
        history := [], today := "2024-06-01" } ∧
    toggle_timer (mkPomodoro [] 20 10 "2024-06-02") =
      { mkPomodoro [] 20 10 "2024-06-02" with is_running := true, time_left := 1199 } := by
  constructor
  · exact (c6_amended _).1 rfl
  · exact (c6_amended (mkPomodoro [] 20 10 "2024-06-02")).2 rfl (by decide)

/-- Claim C4: a key present in `calendar_events` always maps to a non-empty
list: the invariant holds of the empty map, is established and preserved by
`add_event` (which only appends non-empty input), and is preserved by
`delete_event` (which deletes the key when the list would become empty). -/
theorem c4_events_nonempty :
    EventsInv ([] : EventsMap) ∧
    ∀ m : EventsMap, EventsInv m →
      (∀ d v, EventsInv (add_event m d v)) ∧
      (∀ d idx, EventsInv (delete_event m d idx)) := by
  constructor
  · intro p hp
    cases hp
  intro m hm
  constructor
  · intro d v p hp
    unfold add_event at hp
    by_cases hv : v ≠ ""
    · rw [if_pos hv] at hp
      rcases mem_setKey hp with h1 | h1
      · rw [h1]
        simp
      · exact hm p h1
    · rw [if_neg hv] at hp
      exact hm p hp
  · intro d idx p hp
    simp only [delete_event] at hp
    split at hp
    · split at hp
      · exact hm p (mem_delKey hp)
      · rcases mem_setKey hp with h1 | h1
        · rw [h1]
          rename_i hne
          exact hne
        · exact hm p h1
    · exact hm p hp

/-- Witness for C4 at a concrete map satisfying the invariant. -/
theorem c4_events_nonempty_witness :
    EventsInv (add_event [("2024-01-01", ["meeting"])] "2024-01-02" "call") ∧
    EventsInv (delete_event [("2024-01-01", ["meeting"])] "2024-01-01" 0) :=
  ⟨((c4_events_nonempty.2 [("2024-01-01", ["meeting"])] (by decide)).1
      "2024-01-02" "call"),
   ((c4_events_nonempty.2 [("2024-01-01", ["meeting"])] (by decide)).2
      "2024-01-01" 0)⟩

/-- While the timer is running with time on the clock, `n` tick invocations
decrement `time_left` by exactly `n` and change nothing else. -/
theorem run_timer_iterate (n : Nat) :
    ∀ s : PomodoroState, s.is_running = true → (n : Int) ≤ s.time_left →
      run_timer^[n] s = { s with time_left := s.time_left - n } := by
  induction n with
  | zero =>
    intro s _ _
    simp
  | succ n ih =>
    intro s h1 h2
    rw [Function.iterate_succ_apply]
    have hpos : 0 < s.time_left := by
      have : ((n : Int) + 1) ≤ s.time_left := by push_cast at h2; omega
      omega
    have hrt : run_timer s = { s with time_left := s.time_left - 1 } := by
      unfold run_timer
      rw [if_pos ⟨h1, hpos⟩]
    rw [hrt]
    rw [ih { s with time_left := s.time_left - 1 } h1
      (by dsimp only; push_cast at h2 ⊢; omega)]
    congr 1
    dsimp only
    push_cast
    ring

/-- A tick that finds the focus countdown at zero performs the
Focus-to-Break phase completion. -/
theorem run_timer_completes (s : PomodoroState)
    (_h1 : s.is_running = true) (h0 : s.time_left = 0) (hb : s.is_break = false)
    (hs : s.sessions_today = getKeyD s.history s.today 0) :
    (run_timer s).is_break = true ∧ (run_timer s).is_running = false ∧
      (run_timer s).time_left = s.breakSetting * 60 ∧
      getKeyD (run_timer s).history s.today 0 = getKeyD s.history s.today 0 + 1 := by
  have hrt : run_timer s = timer_complete s := by
    unfold run_timer
    rw [if_neg (by simp [h0]), if_pos h0]
  rw [hrt]
  unfold timer_complete
  rw [if_pos hb]
  refine ⟨rfl, rfl, rfl, ?_⟩
  dsimp only
  rw [getKeyD_setKey_self, hs]

/-- Claim C1: while running in Focus each tick decrements `time_left` by
exactly 1; a tick at `time_left = 0` completes the phase — today's count in
`pomodoro_history` grows by exactly 1, the phase flips to Break, `time_left`
resets to `break_minutes * 60`, and `is_running` becomes false.  In
particular with `focus_minutes = 1` (so `time_left = 60`), 60 ticks after
pressing start the Focus-to-Break transition has occurred. -/
theorem c1_focus_countdown :
    (∀ s : PomodoroState, s.is_running = true → 0 < s.time_left →
        run_timer s = { s with time_left := s.time_left - 1 }) ∧
    (∀ s : PomodoroState, s.is_running = true → s.time_left = 0 →
        s.is_break = false → s.sessions_today = getKeyD s.history s.today 0 →
        (run_timer s).is_break = true ∧ (run_timer s).is_running = false ∧
          (run_timer s).time_left = s.breakSetting * 60 ∧
          getKeyD (run_timer s).history s.today 0 = getKeyD s.history s.today 0 + 1) ∧
    (∀ (h : List (String × Int)) (b : Int) (t : String),
        (run_timer^[60] (toggle_timer (mkPomodoro h 1 b t))).is_break = true ∧
        (run_timer^[60] (toggle_timer (mkPomodoro h 1 b t))).is_running = false ∧
        (run_timer^[60] (toggle_timer (mkPomodoro h 1 b t))).time_left = b * 60 ∧
        getKeyD (run_timer^[60] (toggle_timer (mkPomodoro h 1 b t))).history t 0 =
          getKeyD h t 0 + 1) := by
  refine ⟨?_, ?_, ?_⟩
  · intro s h1 hpos
    unfold run_timer
    rw [if_pos ⟨h1, hpos⟩]
  · intro s h1 h0 hb hs
    exact run_timer_completes s h1 h0 hb hs
  · intro h b t
    rw [toggle_timer_start (mkPomodoro h 1 b t) rfl
      (by show (0 : Int) < (1 : Int) * 60; norm_num)]
    rw [show (60 : Nat) = 1 + 59 from rfl, Function.iterate_add_apply,
      Function.iterate_one]
    rw [run_timer_iterate 59 _ rfl
      (by show ((59 : Nat) : Int) ≤ (1 : Int) * 60 - 1; norm_num)]
    exact run_timer_completes _ rfl
      (by show (1 : Int) * 60 - 1 - ((59 : Nat) : Int) = 0; norm_num) rfl rfl

/-- Witness for C1 at concrete states: a running tick at `time_left = 60`,
a completing tick, and the 60-tick scenario on an empty history. -/
theorem c1_focus_countdown_witness :
    run_timer { focusSetting := 1, breakSetting := 5, is_running := true,
                is_break := false, time_left := 60, sessions_today := 0,
                history := [], today := "2024-06-01" } =
      { focusSetting := 1, breakSetting := 5, is_running := true,
        is_break := false, time_left := 59, sessions_today := 0,
        history := [], today := "2024-06-01" } ∧
    (run_timer { focusSetting := 1, breakSetting := 5, is_running := true,
                 is_break := false, time_left := 0, sessions_today := 0,
                 history := [], today := "2024-06-01" }).is_break = true ∧
    getKeyD (run_timer^[60]
        (toggle_timer (mkPomodoro [] 1 5 "2024-06-01"))).history "2024-06-01" 0 =
      getKeyD ([] : List (String × Int)) "2024-06-01" 0 + 1 := by
  refine ⟨?_, ?_, ?_⟩
  · exact c1_focus_countdown.1 _ rfl (by decide)
  · exact (c1_focus_countdown.2.1 _ rfl rfl rfl (by decide)).1
  · exact (c1_focus_countdown.2.2 [] 5 "2024-06-01").2.2.2

/-- `timer_complete` keeps `today`, never shrinks today's persisted count,
and re-establishes `PomInv`. -/
theorem timer_complete_mono (s : PomodoroState) (h : PomInv s) :
    HistMono s (timer_complete s) := by
  unfold PomInv at h
  unfold timer_complete HistMono PomInv
  by_cases hb : s.is_break = false
  · rw [if_pos hb]
    dsimp only
    rw [getKeyD_setKey_self]
    exact ⟨rfl, by omega, by omega⟩
  · rw [if_neg hb]
    exact ⟨rfl, le_refl _, h⟩

/-- `run_timer` satisfies the same history-monotonicity contract. -/
theorem run_timer_mono (s : PomodoroState) (h : PomInv s) :
    HistMono s (run_timer s) := by
  unfold run_timer
  by_cases h1 : s.is_running = true ∧ 0 < s.time_left
  · rw [if_pos h1]
    exact ⟨rfl, le_refl _, h⟩
  · rw [if_neg h1]
    by_cases h0 : s.time_left = 0
    · rw [if_pos h0]
      exact timer_complete_mono s h
    · rw [if_neg h0]
      exact ⟨rfl, le_refl _, h⟩

/-- Claim C9: `sessions_today` is read once at construction as
`pomodoro_history[today]` (0 when absent), and every engine operation —
start/pause, tick, phase completion, skip, reset, settings update — keeps
`today`'s persisted count non-decreasing while preserving the cache
invariant `PomInv`. -/
theorem c9_history_monotone :
    (∀ (h : List (String × Int)) (f b : Int) (t : String),
        (mkPomodoro h f b t).sessions_today = getKeyD h t 0 ∧
        PomInv (mkPomodoro h f b t)) ∧
    (∀ s : PomodoroState, PomInv s →
        HistMono s (toggle_timer s) ∧ HistMono s (run_timer s) ∧
        HistMono s (timer_complete s) ∧ HistMono s (skip_timer s) ∧
        HistMono s (reset_timer s) ∧
        ∀ f b, HistMono s (update_settings s f b)) := by
  constructor
  · intro h f b t
    exact ⟨rfl, le_refl _⟩
  intro s hinv
  refine ⟨?_, run_timer_mono s hinv, timer_complete_mono s hinv, ?_, ?_, ?_⟩
  · unfold toggle_timer
    by_cases h1 : (!s.is_running) = true
    · rw [h1]
      show HistMono s (run_timer { s with is_running := true })
      exact run_timer_mono { s with is_running := true } hinv
    · have h2 : s.is_running = true := by
        cases hr : s.is_running with
        | true => rfl
        | false => exact absurd (by rw [hr]; rfl) h1
      rw [h2]
      exact ⟨rfl, le_refl _, hinv⟩
  · unfold skip_timer
    exact timer_complete_mono { s with time_left := 0 } hinv
  · unfold reset_timer
    exact ⟨rfl, le_refl _, hinv⟩
  · intro f b
    unfold update_settings
    by_cases hf : f < 1 ∨ 90 < f
    · rw [if_pos hf]
      exact ⟨rfl, le_refl _, hinv⟩
    · rw [if_neg hf]
      by_cases hbr : b < 1 ∨ 30 < b
      · rw [if_pos hbr]
        exact ⟨rfl, le_refl _, hinv⟩
      · rw [if_neg hbr]
        by_cases hrun : s.is_running = false
        · rw [if_pos hrun]
          exact ⟨rfl, le_refl _, hinv⟩
        · rw [if_neg hrun]
          exact ⟨rfl, le_refl _, hinv⟩

/-- Witness for C9 at a concrete state satisfying `PomInv`. -/
theorem c9_history_monotone_witness :
    (mkPomodoro [("2024-06-01", 3)] 25 5 "2024-06-01").sessions_today =
      getKeyD [("2024-06-01", 3)] "2024-06-01" 0 ∧
    HistMono (mkPomodoro [("2024-06-01", 3)] 25 5 "2024-06-01")
      (skip_timer (mkPomodoro [("2024-06-01", 3)] 25 5 "2024-06-01")) :=
  ⟨(c9_history_monotone.1 [("2024-06-01", 3)] 25 5 "2024-06-01").1,
   (c9_history_monotone.2 (mkPomodoro [("2024-06-01", 3)] 25 5 "2024-06-01")
      (by decide)).2.2.2.1⟩

/-- Counterexample to claim C5 as stated: the write path strips its input, so
writing the non-empty text `" "` at a day-plan key deletes the key and
reading it back yields `""`, not `" "`. -/
theorem c5_counterexample :
    (" " : String) ≠ "" ∧
    get_plan (save_slot [] (dayKey "2024-06-01" 9) " ") (dayKey "2024-06-01" 9) = "" ∧
    get_plan (save_slot [] (dayKey "2024-06-01" 9) " ") (dayKey "2024-06-01" 9) ≠ " " := by
  refine ⟨by decide, by decide, by decide⟩

/-- Claim C5 (amended): for the day/weekly/monthly plan maps, writing text
whose whitespace-strip is empty (in particular the empty string) removes the
key; writing text with non-empty strip stores the stripped text, so reading
the same key — for day plans the exact key string `YYYY-MM-DD_H` with
unpadded hour — returns the stripped text (the original text whenever it
carries no surrounding whitespace); reading an absent key returns `""`. -/
theorem c5_amended :
    (∀ m key raw, stripString raw = "" →
        getKey? (save_slot m key raw) key = none ∧
        getKey? (save_day m key raw) key = none) ∧
    (∀ m key raw, stripString raw ≠ "" →
        get_plan (save_slot m key raw) key = stripString raw ∧
        get_plan (save_day m key raw) key = stripString raw) ∧
    (∀ m key, getKey? m key = none → get_plan m key = "") ∧
    dayKey "2024-06-01" 9 = "2024-06-01_9" := by
  refine ⟨?_, ?_, ?_, by decide⟩
  · intro m key raw h
    constructor
    · unfold save_slot
      rw [if_neg (by simp [h])]
      by_cases hk : (getKey? m key).isSome = true
      · rw [if_pos hk]
        exact getKey?_delKey_self m key
      · rw [if_neg hk]
        exact Option.not_isSome_iff_eq_none.mp hk
    · unfold save_day
      rw [if_neg (by simp [h])]
      by_cases hk : (getKey? m key).isSome = true
      · rw [if_pos hk]
        exact getKey?_delKey_self m key
      · rw [if_neg hk]
        exact Option.not_isSome_iff_eq_none.mp hk
  · intro m key raw h
    constructor
    · unfold save_slot
      rw [if_pos h]
      unfold get_plan
      rw [getKeyD_setKey_self]
    · unfold save_day
      rw [if_pos h]
      unfold get_plan
      rw [getKeyD_setKey_self]
  · intro m key h
    unfold get_plan getKeyD
    rw [h]
    rfl

/-- Witness for C5 (amended) at concrete writes. -/
theorem c5_amended_witness :
    getKey? (save_slot [("2024-06-01_9", "gym")] "2024-06-01_9" "") "2024-06-01_9" =
      none ∧
    get_plan (save_slot [] "2024-06-01_9" "gym") "2024-06-01_9" = stripString "gym" ∧
    get_plan ([] : List (String × String)) "2024-06-01_9" = "" :=
  ⟨(c5_amended.1 [("2024-06-01_9", "gym")] "2024-06-01_9" "" (by decide)).1,
   (c5_amended.2.1 [] "2024-06-01_9" "gym" (by decide)).1,
   c5_amended.2.2.1 [] "2024-06-01_9" rfl⟩

/-- Counterexample to claim C7 as stated: May 31, 2024 is a valid date, yet
`next_month` raises `ValueError` (June has 30 days) instead of yielding a
date with the month incremented. -/
theorem c7_counterexample :
    ValidDate { year := 2024, month := 5, day := 31 } ∧
    next_month { year := 2024, month := 5, day := 31 } =
      Except.error "day is out of range for month" := by
  refine ⟨by decide, rfl⟩

/-- Claim C7 (amended): year boundaries always roll correctly — `next_month`
from December (below `datetime`'s year cap) yields January of the next year
and `prev_month` from January yields December of the previous year, the day
being preserved since both months have 31 days; for the other months the
year is unchanged and the month moves by one provided the day exists in the
target month, and otherwise the operation raises `ValueError`
(`Except.error`). -/
theorem c7_amended :
    ∀ d : CalDate, ValidDate d →
      (d.month = 12 → d.year < 9999 →
        next_month d = Except.ok { year := d.year + 1, month := 1, day := d.day }) ∧
      (d.month = 1 → 1 < d.year →
        prev_month d = Except.ok { year := d.year - 1, month := 12, day := d.day }) ∧
      (d.month ≠ 12 → d.day ≤ daysInMonth d.year (d.month + 1) →
        next_month d = Except.ok { year := d.year, month := d.month + 1, day := d.day }) ∧
      (d.month ≠ 1 → d.day ≤ daysInMonth d.year (d.month - 1) →
        prev_month d = Except.ok { year := d.year, month := d.month - 1, day := d.day }) ∧
      (d.month ≠ 12 → daysInMonth d.year (d.month + 1) < d.day →
        next_month d = Except.error "day is out of range for month") ∧
      (d.month ≠ 1 → daysInMonth d.year (d.month - 1) < d.day →
        prev_month d = Except.error "day is out of range for month") := by
  intro d hv
  obtain ⟨hy1, hy2, hm1, hm2, hd1, hd2⟩ := hv
  refine ⟨?_, ?_, ?_, ?_, ?_, ?_⟩
  · intro h12 hy
    have h31 : daysInMonth (d.year + 1) 1 = 31 := by norm_num [daysInMonth]
    have hd31 : d.day ≤ 31 := by
      rw [h12] at hd2
      have : daysInMonth d.year 12 = 31 := by norm_num [daysInMonth]
      omega
    unfold next_month
    rw [if_pos h12]
    unfold replaceYM
    rw [if_pos ⟨by omega, by omega, by omega, by omega, hd1, by omega⟩]
  · intro h1 hy
    have h31 : daysInMonth (d.year - 1) 12 = 31 := by norm_num [daysInMonth]
    have hd31 : d.day ≤ 31 := by
      rw [h1] at hd2
      have : daysInMonth d.year 1 = 31 := by norm_num [daysInMonth]
      omega
    unfold prev_month
    rw [if_pos h1]
    unfold replaceYM
    rw [if_pos ⟨by omega, by omega, by omega, by omega, hd1, by omega⟩]
  · intro h12 hday
    unfold next_month
    rw [if_neg h12]
    unfold replaceYM
    rw [if_pos ⟨hy1, hy2, by omega, by omega, hd1, hday⟩]
  · intro h1 hday
    unfold prev_month
    rw [if_neg h1]
    unfold replaceYM
    rw [if_pos ⟨hy1, hy2, by omega, by omega, hd1, hday⟩]
  · intro h12 hday
    unfold next_month
    rw [if_neg h12]
    unfold replaceYM
    rw [if_neg (by intro hc; omega)]
  · intro h1 hday
    unfold prev_month
    rw [if_neg h1]
    unfold replaceYM
    rw [if_neg (by intro hc; omega)]

/-- Witness for C7 (amended): the year-boundary rolls of the spec's examples
and an ordinary mid-month step. -/
theorem c7_amended_witness :
    next_month { year := 2024, month := 12, day := 15 } =
      Except.ok { year := 2025, month := 1, day := 15 } ∧
    prev_month { year := 2025, month := 1, day := 20 } =
      Except.ok { year := 2024, month := 12, day := 20 } ∧
    next_month { year := 2024, month := 6, day := 15 } =
      Except.ok { year := 2024, month := 7, day := 15 } := by
  refine ⟨?_, ?_, ?_⟩
  · have h := (c7_amended { year := 2024, month := 12, day := 15 }
      (by decide)).1 rfl (by decide)
    rw [h]
    norm_num
  · have h := (c7_amended { year := 2025, month := 1, day := 20 }
      (by decide)).2.1 rfl (by decide)
    rw [h]
    norm_num
  · have h := (c7_amended { year := 2024, month := 6, day := 15 }
      (by decide)).2.2.1 (by decide) (by decide)
    rw [h]

theorem stripString_empty : stripString "" = "" := rfl

/-- A value as the write paths store it: non-empty and fixed by `strip`. -/
def Stripped (s : String) : Prop := s ≠ "" ∧ stripString s = s

instance (s : String) : Decidable (Stripped s) := by
  unfold Stripped; infer_instance

/-- Every value resident in a plan map is stored stripped and non-empty. -/
def PlanInv (m : List (String × String)) : Prop := ∀ p ∈ m, Stripped p.2

instance (m : List (String × String)) : Decidable (PlanInv m) := by
  unfold PlanInv; infer_instance

/-- Every todo's text is stored stripped and non-empty. -/
def TodoTextInv (l : List Todo) : Prop := ∀ t ∈ l, Stripped t.text

instance (l : List Todo) : Decidable (TodoTextInv l) := by
  unfold TodoTextInv; infer_instance

theorem stripList_head_not_ws {l : List Char} {c : Char} {t : List Char}
    (h : stripList l = c :: t) : c.isWhitespace = false := by
  unfold stripList at h
  cases hdw : l.dropWhile Char.isWhitespace with
  | nil =>
    rw [hdw] at h
    exact absurd h (by simp [rstripList])
  | cons a as =>
    rw [hdw] at h
    rcases rstripList_head a as with h0 | ⟨t', ht'⟩
    · rw [h0] at h
      exact absurd h (by simp)
    · rw [ht'] at h
      injection h with h1 h2
      rw [h1] at hdw
      exact dropWhile_head_false hdw

theorem rstripList_getLast_not_ws :
    ∀ {l : List Char} {c : Char},
      (rstripList l).getLast? = some c → c.isWhitespace = false := by
  intro l
  induction l with
  | nil =>
    intro c h
    exact absurd h (by simp [rstripList])
  | cons a as ih =>
    intro c h
    by_cases hcond : rstripList as = [] ∧ a.isWhitespace = true
    · rw [show rstripList (a :: as) = [] by simp [rstripList, hcond]] at h
      exact absurd h (by simp)
    · rw [show rstripList (a :: as) = a :: rstripList as by
        simp only [rstripList, if_neg hcond]] at h
      cases hr : rstripList as with
      | nil =>
        rw [hr] at h
        simp at h
        rw [← h]
        have : a.isWhitespace = true → False := by
          intro hw
          exact hcond ⟨hr, hw⟩
        cases hwa : a.isWhitespace with
        | true => exact absurd hwa this
        | false => rfl
      | cons b bs =>
        rw [hr, List.getLast?_cons_cons] at h
        exact ih (by rw [hr]; exact h)

theorem stripList_getLast_not_ws {l : List Char} {c : Char}
    (h : (stripList l).getLast? = some c) : c.isWhitespace = false :=
  rstripList_getLast_not_ws h

/-- Claim C10: every write path strips its input, so plan values and todo
texts are stored non-empty and equal to their own strip, whitespace-only
input behaves exactly like empty input (key deleted for plans, entry
rejected for todos), and no stored value starts or ends with whitespace. -/
theorem c10_whitespace_normalization :
    (∀ m key raw, PlanInv m →
        PlanInv (save_slot m key raw) ∧ PlanInv (save_day m key raw)) ∧
    (∀ l raw, TodoTextInv l → TodoTextInv (add_todo l raw)) ∧
    (∀ m key raw, stripString raw = "" →
        save_slot m key raw = save_slot m key "" ∧
        save_day m key raw = save_day m key "") ∧
    (∀ l raw, stripString raw = "" → add_todo l raw = l) ∧
    (∀ v, Stripped v →
        (∀ c t, v.data = c :: t → c.isWhitespace = false) ∧
        (∀ c, v.data.getLast? = some c → c.isWhitespace = false)) := by
  have hsave : ∀ m key raw, PlanInv m → PlanInv (save_slot m key raw) := by
    intro m key raw hm
    unfold save_slot
    by_cases hs : stripString raw ≠ ""
    · rw [if_pos hs]
      intro p hp
      rcases mem_setKey hp with h1 | h1
      · rw [h1]
        exact ⟨hs, stripString_stripString raw⟩
      · exact hm p h1
    · rw [if_neg hs]
      by_cases hk : (getKey? m key).isSome = true
      · rw [if_pos hk]
        intro p hp
        exact hm p (mem_delKey hp)
      · rw [if_neg hk]
        exact hm
  have hday_eq : save_day = save_slot := rfl
  refine ⟨?_, ?_, ?_, ?_, ?_⟩
  · intro m key raw hm
    exact ⟨hsave m key raw hm, by rw [hday_eq]; exact hsave m key raw hm⟩
  · intro l raw hl
    unfold add_todo
    by_cases hs : stripString raw ≠ ""
    · rw [if_pos hs]
      intro t ht
      rcases List.mem_append.mp ht with h1 | h1
      · exact hl t h1
      · rw [List.mem_singleton.mp h1]
        exact ⟨hs, stripString_stripString raw⟩
    · rw [if_neg hs]
      exact hl
  · intro m key raw h
    constructor
    · simp [save_slot, h, stripString_empty]
    · simp [save_day, h, stripString_empty]
  · intro l raw h
    simp [add_todo, h]
  · intro v hv
    have hdata : stripList v.data = v.data := congrArg String.data hv.2
    constructor
    · intro c t hct
      exact stripList_head_not_ws (hdata.trans hct)
    · intro c hc
      exact stripList_getLast_not_ws (l := v.data) (by rw [hdata]; exact hc)

/-- Witness for C10 at concrete inputs: a plan write with padded text, a todo
added from padded text, whitespace-only writes behaving like empty ones, and
a stored value with non-whitespace boundary characters. -/
theorem c10_whitespace_normalization_witness :
    PlanInv (save_slot [("2024-06-01_9", "gym")] "2024-06-02_9" "  hi  ") ∧
    TodoTextInv (add_todo [] " x ") ∧
    save_slot [("2024-06-01_9", "gym")] "2024-06-01_9" "   " =
      save_slot [("2024-06-01_9", "gym")] "2024-06-01_9" "" ∧
    add_todo [{ text := "a", done := false }] "  " = [{ text := "a", done := false }] ∧
    ('h' : Char).isWhitespace = false :=
  ⟨(c10_whitespace_normalization.1 [("2024-06-01_9", "gym")] "2024-06-02_9" "  hi  "
      (by decide)).1,
   c10_whitespace_normalization.2.1 [] " x " (by decide),
   (c10_whitespace_normalization.2.2.1 [("2024-06-01_9", "gym")] "2024-06-01_9" "   "
      (by decide)).1,
   c10_whitespace_normalization.2.2.2.1 [{ text := "a", done := false }] "  " (by decide),
   (c10_whitespace_normalization.2.2.2.2 "hi" (by decide)).1 'h' ['i'] rfl⟩
